import Mathlib

/-!
Verification of the VoiceIt icon-generation scripts
(`generate_icon.py` and `generate_alternate_icons.py`).

The scripts are straight-line Python built on the Pillow imaging
library.  The shallow embedding below translates them into Lean:

* Python machine integers are `Nat`/`Int` (all sizes in the scripts are
  nonnegative, and Python `//` on nonnegative operands is `Nat` floor
  division);
* the few floating-point products (`size * 0.8`, `size * 0.7`,
  `255 * (y / height)`, ...) are modelled by the exact rational value
  with floor where Python truncates via `int(...)` or `//`.  At every
  size the scripts actually use, the double-precision result agrees
  with the exact rational floor; all tolerance statements proved below
  absorb a one-unit discrepancy in any case;
* Pillow's mask paste and RGBA ink drawing both blend channels with the
  C macro `MULDIV255(a, b) = (t = a*b + 128; ((t >> 8) + t) >> 8)`
  (see `libImaging/Paste.c` and `libImaging/Draw.c`), reproduced
  exactly as `muldiv255` below;
* an in-memory Pillow image is a width, a height, a mode (`RGB` has no
  alpha channel) and a pixel map;
* each drawing primitive (rounded rectangle, ellipse, line, polygon)
  updates exactly the pixels lying in the primitive's closed region,
  blending the RGBA ink with the previous pixel value.
-/

namespace VoiceIt

/-- An RGB color: three 8-bit channels indexed by `Fin 3`. -/
def RGBc : Type := Fin 3 → ℕ

instance : Inhabited RGBc := ⟨fun _ => 0⟩

/-- Pillow's `MULDIV255` macro from `ImagingPaste`/`ImagingDraw`:
`t = a*b + 128; ((t >> 8) + t) >> 8`, a fast approximation of
`round(a*b/255)`. -/
def muldiv255 (a b : ℕ) : ℕ := ((a * b + 128) / 256 + (a * b + 128)) / 256

/-- Pillow's `BLEND` macro: blend `old` and `new` by mask value `m`
(0 keeps `old`, 255 takes `new`). -/
def blendCh (m old new : ℕ) : ℕ := muldiv255 old (255 - m) + muldiv255 new m

/-- Mask value of `create_gradient` at row `y`:
`int(255 * (y / height))`, i.e. the rational `255*y/height` truncated.
(The source computes it through double-precision division; the exact
floor is used here, see the file comment.) -/
def gradMask (h y : ℕ) : ℕ := 255 * y / h

/-- An in-memory Pillow image: dimensions, whether the mode carries an
alpha channel (`'RGB'` does not), and the pixel map. -/
structure Img where
  width : ℕ
  height : ℕ
  hasAlpha : Bool
  pix : ℕ → ℕ → RGBc

/-- `create_gradient(width, height, color1, color2)` (identical in both
scripts): a solid `color1` base in mode `'RGB'`, a solid `color2`
layer, and an `'L'` mask whose row `y` holds `int(255 * (y / height))`;
`base.paste(top, (0, 0), mask)` blends the two with `BLEND`. -/
def create_gradient (w h : ℕ) (c1 c2 : RGBc) : Img :=
  { width := w
    height := h
    hasAlpha := false
    pix := fun _ y i => blendCh (gradMask h y) (c1 i) (c2 i) }

/-! ### Arithmetic facts about Pillow's blend -/

/-! ### Drawing primitives -/

/-- A point of the drawing plane. -/
abbrev Pt : Type := ℚ × ℚ

/-- Square of a rational (kept multiplication-only so that concrete
instances evaluate easily). -/
def sq (q : ℚ) : ℚ := q * q

/-! A primitive shape issued to `ImageDraw`.  Coordinates are rationals:
every coordinate computed by the scripts is an integer except the
waveform bar tops/bottoms (integer-valued floats) and the weather
sun-ray endpoints (products with `math.cos`/`math.sin` values).

`ImageDraw.polygon` is only ever called with exactly three vertices
(the wellness heart), hence the three-point `tri` constructor. -/

inductive Shape where
  | rrect (x0 y0 x1 y1 r : ℚ)
  | rect (x0 y0 x1 y1 : ℚ)
  | ell (x0 y0 x1 y1 : ℚ)
  | seg (a b : Pt) (w : ℚ)
  | tri (a b c : Pt)
  deriving DecidableEq

instance : Inhabited Shape := ⟨Shape.rect 0 0 0 0⟩

/-- Closed axis-aligned box membership. -/
abbrev inBox (x0 y0 x1 y1 : ℚ) (p : Pt) : Prop :=
  x0 ≤ p.1 ∧ p.1 ≤ x1 ∧ y0 ≤ p.2 ∧ p.2 ≤ y1

/-- Closed disc membership. -/
abbrev inDisc (a b r : ℚ) (p : Pt) : Prop :=
  sq (p.1 - a) + sq (p.2 - b) ≤ sq r

/-- Squared distance between two points. -/
def d2 (p q : Pt) : ℚ := sq (p.1 - q.1) + sq (p.2 - q.2)

/-- `p` lies within distance `w/2` of the segment `[a, b]`
(division-free formulation of the clamped-projection distance). -/
abbrev segNear (a b : Pt) (w : ℚ) (p : Pt) : Prop :=
  (((p.1 - a.1) * (b.1 - a.1) + (p.2 - a.2) * (b.2 - a.2)) ≤ 0 ∧ d2 p a ≤ sq (w / 2))
  ∨ ((sq (b.1 - a.1) + sq (b.2 - a.2)) ≤ ((p.1 - a.1) * (b.1 - a.1) + (p.2 - a.2) * (b.2 - a.2))
      ∧ d2 p b ≤ sq (w / 2))
  ∨ (0 < ((p.1 - a.1) * (b.1 - a.1) + (p.2 - a.2) * (b.2 - a.2))
      ∧ ((p.1 - a.1) * (b.1 - a.1) + (p.2 - a.2) * (b.2 - a.2)) < (sq (b.1 - a.1) + sq (b.2 - a.2))
      ∧ d2 p a * (sq (b.1 - a.1) + sq (b.2 - a.2))
          - sq ((p.1 - a.1) * (b.1 - a.1) + (p.2 - a.2) * (b.2 - a.2))
        ≤ sq (w / 2) * (sq (b.1 - a.1) + sq (b.2 - a.2)))

/-- Signed area test for the directed edge `a → b` against `p`. -/
def edge (a b p : Pt) : ℚ := (b.1 - a.1) * (p.2 - a.2) - (b.2 - a.2) * (p.1 - a.1)

/-- The closed region of a primitive: the set of points a fill of the
shape may touch. -/
@[reducible] def inShape : Shape → Pt → Prop
  | .rrect x0 y0 x1 y1 r, p =>
      inBox x0 (y0 + r) x1 (y1 - r) p ∨ inBox (x0 + r) y0 (x1 - r) y1 p
      ∨ inDisc (x0 + r) (y0 + r) r p ∨ inDisc (x1 - r) (y0 + r) r p
      ∨ inDisc (x0 + r) (y1 - r) r p ∨ inDisc (x1 - r) (y1 - r) r p
  | .rect x0 y0 x1 y1, p => inBox x0 y0 x1 y1 p
  | .ell x0 y0 x1 y1, p =>
      sq ((2 * p.1 - (x0 + x1)) * (y1 - y0)) + sq ((2 * p.2 - (y0 + y1)) * (x1 - x0))
        ≤ sq ((x1 - x0) * (y1 - y0))
  | .seg a b w, p => segNear a b w p
  | .tri a b c, p =>
      (0 ≤ edge a b p ∧ 0 ≤ edge b c p ∧ 0 ≤ edge c a p)
      ∨ (edge a b p ≤ 0 ∧ edge b c p ≤ 0 ∧ edge c a p ≤ 0)

instance instDecInShape (s : Shape) (p : Pt) : Decidable (inShape s p) := by
  cases s <;> exact inferInstance

/-- An RGBA ink: the color channels and the alpha.  A plain RGB fill on
an RGB drawing context replaces pixels, which coincides with alpha
`255` under Pillow's `BLEND`. -/
abbrev Ink := RGBc × ℕ

/-- One primitive fill: pixels inside the region are blended with the
ink (Pillow's `ImagingDrawInk` blend for an RGBA ink over RGB);
everything else is untouched. -/
def drawShape (ink : Ink) (img : Img) (s : Shape) : Img :=
  { img with pix := fun x y =>
      if inShape s ((x : ℚ), (y : ℚ)) then fun i => blendCh ink.2 (img.pix x y i) (ink.1 i)
      else img.pix x y }

/-- Execute a drawer's fixed sequence of primitive fills in order. -/
def drawShapes (img : Img) (items : List (Shape × Ink)) : Img :=
  items.foldl (fun im si => drawShape si.2 im si.1) img

/-- A point is covered by (the region of) some shape of the list. -/
abbrev covered (items : List (Shape × Ink)) (p : Pt) : Prop :=
  ∃ si ∈ items, inShape si.1 p

/-! ### Horizontal mirroring -/

/-- Reflection across the vertical line `x = c`. -/
def reflectX (c : ℚ) (p : Pt) : Pt := (2 * c - p.1, p.2)

/-- Mirror image of a primitive across the vertical line `x = c`. -/
def mirrorShape (c : ℚ) : Shape → Shape
  | .rrect x0 y0 x1 y1 r => .rrect (2 * c - x1) y0 (2 * c - x0) y1 r
  | .rect x0 y0 x1 y1 => .rect (2 * c - x1) y0 (2 * c - x0) y1
  | .ell x0 y0 x1 y1 => .ell (2 * c - x1) y0 (2 * c - x0) y1
  | .seg a b w => .seg (reflectX c a) (reflectX c b) w
  | .tri a b c' => .tri (reflectX c a) (reflectX c b) (reflectX c c')

/-! ### Frame and dimension preservation of drawing -/

/-! ### Glyph drawers -/

/-- `draw_waveform(draw, center_x, center_y, size, color)` from
`generate_icon.py`: five vertical rounded bars.  `bar_width = size//10`,
`spacing = size//12`; the bars sit at `center_x + k*(bar_width+spacing)`
for `k = -2..2` with height ratios `0.5, 0.7, 1.0, 0.7, 0.5`; each bar
is a rounded rectangle `[x - bar_width//2, y - bar_height//2,
x + bar_width//2, y + bar_height//2]` with radius `bar_width//2`
(`bar_height = size * ratio` is a float; its `// 2` is the rational
floor). -/
def waveformBar (cy : ℤ) (size : ℕ) (x : ℤ) (ratio : ℚ) : Shape :=
  let bwh : ℤ := (size / 10 / 2 : ℕ)
  let hh : ℤ := ⌊(size : ℚ) * ratio / 2⌋
  Shape.rrect ((x - bwh : ℤ) : ℚ) ((cy - hh : ℤ) : ℚ) ((x + bwh : ℤ) : ℚ)
    ((cy + hh : ℤ) : ℚ) ((bwh : ℤ) : ℚ)

/-- The five bars of `draw_waveform` in drawing order. -/
def waveformShapes (cx cy : ℤ) (size : ℕ) (ink : Ink) : List (Shape × Ink) :=
  let bw : ℤ := (size / 10 : ℕ)
  let sp : ℤ := (size / 12 : ℕ)
  [(waveformBar cy size (cx - 2 * (bw + sp)) (1 / 2), ink),
    (waveformBar cy size (cx - (bw + sp)) (7 / 10), ink),
    (waveformBar cy size cx 1, ink),
    (waveformBar cy size (cx + (bw + sp)) (7 / 10), ink),
    (waveformBar cy size (cx + 2 * (bw + sp)) (1 / 2), ink)]

/-- The display of `draw_calculator_icon`: `display_height = size//5`,
`display_width = int(size*0.8)`, top-left `(center_x - display_width//2,
center_y - size//2 + size//10)`, radius `size//30` (the fill and the
outline use the same color). -/
def calcDisplayShape (cx cy : ℤ) (size : ℕ) : Shape :=
  let dh : ℤ := (size / 5 : ℕ)
  let dw : ℤ := (4 * size / 5 : ℕ)
  let dx : ℤ := cx - (4 * size / 5 / 2 : ℕ)
  let dy : ℤ := cy - (size / 2 : ℕ) + (size / 10 : ℕ)
  Shape.rrect (dx : ℚ) (dy : ℚ) ((dx + dw : ℤ) : ℚ) ((dy + dh : ℤ) : ℚ) ((size / 30 : ℕ) : ℚ)

/-- The 3×3 button grid of `draw_calculator_icon`:
`button_size = size//7`, `button_spacing = size//15`,
`start_y = display_y + display_height + button_spacing*2`, and button
`(row, col)` is a rounded rectangle of side `button_size` with top-left
`(center_x - button_size - button_spacing + col*(button_size+button_spacing),
start_y + row*(button_size+button_spacing))`, radius `button_size//4`. -/
def calcButton (cx cy : ℤ) (size : ℕ) (row col : ℕ) : Shape :=
  let bs : ℤ := (size / 7 : ℕ)
  let sp : ℤ := (size / 15 : ℕ)
  let dy : ℤ := cy - (size / 2 : ℕ) + (size / 10 : ℕ)
  let startY : ℤ := dy + (size / 5 : ℕ) + sp * 2
  let x : ℤ := cx - bs - sp + col * (bs + sp)
  let y : ℤ := startY + row * (bs + sp)
  Shape.rrect (x : ℚ) (y : ℚ) ((x + bs : ℤ) : ℚ) ((y + bs : ℤ) : ℚ)
    ((size / 7 / 4 : ℕ) : ℚ)

/-- The nine buttons, rows outermost, as in the source's nested loop. -/
def calcButtonShapes (cx cy : ℤ) (size : ℕ) (ink : Ink) : List (Shape × Ink) :=
  (List.range 3).flatMap fun row =>
    (List.range 3).map fun col => (calcButton cx cy size row col, ink)

/-- `draw_calculator_icon`: the display, then the button grid. -/
def calculatorShapes (cx cy : ℤ) (size : ℕ) (ink : Ink) : List (Shape × Ink) :=
  (calcDisplayShape cx cy size, ink) :: calcButtonShapes cx cy size ink

/-- `draw_weather_icon`: eight sun rays (line segments whose directions
come from `math.cos`/`math.sin` of `i*45*3.14159/180`, supplied here as
the parameter `dirs`), then the sun circle, then the three cloud
ellipses.  `ray_length = size//6`, `ray_width = size//40`; ray `i` runs
from radius `size//4` to radius `size//4 + ray_length` around the sun
center `(center_x, center_y - size//6)`; `sun_radius = size//8`;
`cloud_y = center_y + size//10`. -/
def weatherRay (dirs : ℕ → ℚ × ℚ) (cx cy : ℤ) (size : ℕ) (i : ℕ) : Shape :=
  let rayL : ℤ := (size / 6 : ℕ)
  let rad : ℤ := (size / 4 : ℕ)
  let sunY : ℤ := cy - (size / 6 : ℕ)
  Shape.seg ((cx : ℚ) + (dirs i).1 * (rad : ℚ), (sunY : ℚ) + (dirs i).2 * (rad : ℚ))
    ((cx : ℚ) + (dirs i).1 * ((rad + rayL : ℤ) : ℚ),
      (sunY : ℚ) + (dirs i).2 * ((rad + rayL : ℤ) : ℚ)) (((size / 40 : ℕ) : ℤ) : ℚ)

/-- The sun circle of `draw_weather_icon`. -/
def weatherSun (cx cy : ℤ) (size : ℕ) : Shape :=
  let sr : ℤ := (size / 8 : ℕ)
  let sunY : ℤ := cy - (size / 6 : ℕ)
  Shape.ell ((cx - sr : ℤ) : ℚ) ((sunY - sr : ℤ) : ℚ)
    ((cx + sr : ℤ) : ℚ) ((sunY + sr : ℤ) : ℚ)

/-- The left cloud circle. -/
def weatherCloudLeft (cx cy : ℤ) (size : ℕ) : Shape :=
  let cloudY : ℤ := cy + (size / 10 : ℕ)
  Shape.ell ((cx - (size / 4 : ℕ) : ℤ) : ℚ) ((cloudY - (size / 10 : ℕ) : ℤ) : ℚ)
    (cx : ℚ) ((cloudY + (size / 10 : ℕ) : ℤ) : ℚ)

/-- The middle (larger) cloud circle. -/
def weatherCloudMid (cx cy : ℤ) (size : ℕ) : Shape :=
  let cloudY : ℤ := cy + (size / 10 : ℕ)
  Shape.ell ((cx - (size / 6 : ℕ) : ℤ) : ℚ) ((cloudY - (size / 6 : ℕ) : ℤ) : ℚ)
    ((cx + (size / 6 : ℕ) : ℤ) : ℚ) ((cloudY + (size / 8 : ℕ) : ℤ) : ℚ)

/-- The right cloud circle. -/
def weatherCloudRight (cx cy : ℤ) (size : ℕ) : Shape :=
  let cloudY : ℤ := cy + (size / 10 : ℕ)
  Shape.ell (cx : ℚ) ((cloudY - (size / 10 : ℕ) : ℤ) : ℚ)
    ((cx + (size / 4 : ℕ) : ℤ) : ℚ) ((cloudY + (size / 10 : ℕ) : ℤ) : ℚ)

def weatherShapes (dirs : ℕ → ℚ × ℚ) (cx cy : ℤ) (size : ℕ) (ink : Ink) :
    List (Shape × Ink) :=
  ((List.range 8).map fun i => (weatherRay dirs cx cy size i, ink))
    ++ [(weatherSun cx cy size, ink), (weatherCloudLeft cx cy size, ink),
      (weatherCloudMid cx cy size, ink), (weatherCloudRight cx cy size, ink)]

/-- The semi-transparent white ink `(255, 255, 255, 180)` used for the
text lines of the notes glyph. -/
def lineInk : Ink := (![255, 255, 255], 180)

/-- `draw_notes_icon`: the paper (rounded rectangle, radius `size//30`,
width `int(size*0.65)`, height `int(size*0.8)`) in the glyph color,
then four plain rectangles (the "text lines") filled with the
hard-coded RGBA `(255, 255, 255, 180)`.  `line_spacing = size//8`,
`line_width = int(paper_width*0.8)`, `line_height = size//40`,
`line_x = paper_x + paper_width//10`, and line `i` starts at
`paper_y + paper_height//4 + i*line_spacing`. -/
def notesShapes (cx cy : ℤ) (size : ℕ) (ink : Ink) : List (Shape × Ink) :=
  let pw : ℕ := 13 * size / 20
  let ph : ℕ := 4 * size / 5
  let px : ℤ := cx - (pw / 2 : ℕ)
  let py : ℤ := cy - (ph / 2 : ℕ)
  let paper : Shape := Shape.rrect (px : ℚ) (py : ℚ) ((px + pw : ℤ) : ℚ)
    ((py + ph : ℤ) : ℚ) ((size / 30 : ℕ) : ℚ)
  let lsp : ℤ := (size / 8 : ℕ)
  let lw : ℤ := (4 * pw / 5 : ℕ)
  let lh : ℤ := (size / 40 : ℕ)
  let lx : ℤ := px + (pw / 10 : ℕ)
  let lines : List (Shape × Ink) := (List.range 4).map fun i =>
    let ly : ℤ := py + (ph / 4 : ℕ) + (i : ℤ) * lsp
    (Shape.rect (lx : ℚ) (ly : ℚ) ((lx + lw : ℤ) : ℚ) ((ly + lh : ℤ) : ℚ), lineInk)
  (paper, ink) :: lines

/-- `draw_wellness_icon` (heart): two circles of radius
`heart_size//3` centered at `(center_x ± heart_size//4,
center_y - heart_size//6)` with `heart_size = int(size*0.6)`, a
triangle joining the circles' outer points to the bottom tip
`(center_x, center_y + heart_size//2)`, and a filling rectangle. -/
def wellnessLeftEll (cx cy : ℤ) (size : ℕ) : Shape :=
  let hs : ℕ := 3 * size / 5
  let lcx : ℤ := cx - (hs / 4 : ℕ)
  let lcy : ℤ := cy - (hs / 6 : ℕ)
  let r : ℤ := (hs / 3 : ℕ)
  Shape.ell ((lcx - r : ℤ) : ℚ) ((lcy - r : ℤ) : ℚ) ((lcx + r : ℤ) : ℚ) ((lcy + r : ℤ) : ℚ)

/-- The right circle of the heart. -/
def wellnessRightEll (cx cy : ℤ) (size : ℕ) : Shape :=
  let hs : ℕ := 3 * size / 5
  let rcx : ℤ := cx + (hs / 4 : ℕ)
  let lcy : ℤ := cy - (hs / 6 : ℕ)
  let r : ℤ := (hs / 3 : ℕ)
  Shape.ell ((rcx - r : ℤ) : ℚ) ((lcy - r : ℤ) : ℚ) ((rcx + r : ℤ) : ℚ) ((lcy + r : ℤ) : ℚ)

/-- The bottom triangle of the heart. -/
def wellnessTri (cx cy : ℤ) (size : ℕ) : Shape :=
  let hs : ℕ := 3 * size / 5
  let lcx : ℤ := cx - (hs / 4 : ℕ)
  let lcy : ℤ := cy - (hs / 6 : ℕ)
  let r : ℤ := (hs / 3 : ℕ)
  let rcx : ℤ := cx + (hs / 4 : ℕ)
  Shape.tri (((lcx - r : ℤ) : ℚ), (lcy : ℚ)) ((((rcx + r : ℤ) : ℚ)), (lcy : ℚ))
    ((cx : ℚ), (((cy + (hs / 2 : ℕ) : ℤ) : ℚ)))

/-- The gap-filling rectangle of the heart. -/
def wellnessGap (cx cy : ℤ) (size : ℕ) : Shape :=
  let hs : ℕ := 3 * size / 5
  let lcx : ℤ := cx - (hs / 4 : ℕ)
  let lcy : ℤ := cy - (hs / 6 : ℕ)
  let r : ℤ := (hs / 3 : ℕ)
  let rcx : ℤ := cx + (hs / 4 : ℕ)
  Shape.rect (lcx : ℚ) ((lcy - r : ℤ) : ℚ) (rcx : ℚ) ((cy + (hs / 4 : ℕ) : ℤ) : ℚ)

def wellnessShapes (cx cy : ℤ) (size : ℕ) (ink : Ink) : List (Shape × Ink) :=
  [(wellnessLeftEll cx cy size, ink), (wellnessRightEll cx cy size, ink),
    (wellnessTri cx cy size, ink), (wellnessGap cx cy size, ink)]

/-! ### Renderers -/

/-- The glyph dispatch tag stored in the `icon_configs` mapping. -/
inductive GlyphKind where
  | calculator
  | weather
  | notes
  | wellness
  deriving DecidableEq

/-- Resolve a `draw_func` entry to its shape list. -/
def glyphShapes (dirs : ℕ → ℚ × ℚ) : GlyphKind → ℤ → ℤ → ℕ → Ink → List (Shape × Ink)
  | .calculator => calculatorShapes
  | .weather => weatherShapes dirs
  | .notes => notesShapes
  | .wellness => wellnessShapes

/-- The fixed `icon_configs` mapping of `create_alternate_icon`:
identifier → (gradient top color, gradient bottom color, drawer). -/
def iconConfigs : List (String × (RGBc × RGBc × GlyphKind)) :=
  [("Calculator", (![100, 120, 140], ![140, 160, 180], .calculator)),
    ("Weather", (![70, 130, 200], ![100, 180, 255], .weather)),
    ("Notes", (![255, 200, 80], ![255, 220, 100], .notes)),
    ("Wellness", (![200, 100, 150], ![230, 130, 180], .wellness))]

/-- The opaque white RGBA ink `(255, 255, 255, 255)` used for the
alternate-icon glyphs. -/
def whiteInkA : Ink := (![255, 255, 255], 255)

/-- Output file name of an alternate icon:
`f"{icon_type}@{size//60}x.png"`. -/
def fileName (icon_type : String) (size : ℕ) : String :=
  icon_type ++ "@" ++ toString (size / 60) ++ "x.png"

/-- `create_alternate_icon(icon_type, output_dir, size)`: unknown
identifiers print an error and return without writing; otherwise the
gradient is built at `size×size`, the glyph is drawn in RGBA white at
center `(size//2, size//2)` with glyph size `int(size*0.5)`, and the
image is saved to `os.path.join(output_dir, filename)`.  The result is
the optional written file (path and image) together with the printed
console lines. -/
def create_alternate_icon (dirs : ℕ → ℚ × ℚ) (icon_type : String) (output_dir : String)
    (size : ℕ) : Option (String × Img) × List String :=
  match iconConfigs.lookup icon_type with
  | none => (none, ["❌ Unknown icon type: " ++ icon_type])
  | some (c1, c2, g) =>
      let img := create_gradient size size c1 c2
      let img2 := drawShapes img
        (glyphShapes dirs g ((size / 2 : ℕ) : ℤ) ((size / 2 : ℕ) : ℤ) (size / 2) whiteInkA)
      let path := output_dir ++ "/" ++ fileName icon_type size
      (some (path, img2), ["✅ Created " ++ icon_type ++ " icon: " ++ path])

/-- The glyph size of the primary app icon: `waveform_size = size // 2`. -/
def appIconGlyphSize (size : ℕ) : ℕ := size / 2

/-- The fixed output path of `generate_icon.py`. -/
def defaultIconPath : String := "VoiceIt/Assets.xcassets/AppIcon.appiconset/icon-1024.png"

/-- The purple gradient colors of `create_app_icon`. -/
def voiceitPurple : RGBc := ![124, 58, 237]

/-- Lighter purple, the bottom gradient color of `create_app_icon`. -/
def lighterPurple : RGBc := ![167, 85, 255]

/-- The opaque white RGB fill of the primary waveform (an RGB fill on
an RGB context replaces pixels, i.e. alpha 255 under `BLEND`). -/
def whiteInkRGB : Ink := (![255, 255, 255], 255)

/-- `create_app_icon(output_path, size)`: purple gradient at
`size×size` in mode `'RGB'`, waveform drawn in white at center
`(size//2, size//2)` with glyph size `size//2`, and a success line is
printed. -/
def create_app_icon (path : String) (size : ℕ) : Img × List String :=
  let img := create_gradient size size voiceitPurple lighterPurple
  let img2 := drawShapes img
    (waveformShapes ((size / 2 : ℕ) : ℤ) ((size / 2 : ℕ) : ℤ) (appIconGlyphSize size) whiteInkRGB)
  (img2, ["✅ Created app icon: " ++ path])

/-- The fixed identifier batch of `generate_alternate_icons.main`. -/
def icon_types : List String := ["Calculator", "Weather", "Notes", "Wellness"]

/-- The files written by running `create_alternate_icon` at 120 and 180
for each identifier of a batch (`main`'s loop, generalized to an
arbitrary identifier list). -/
def batchFiles (dirs : ℕ → ℚ × ℚ) (output_dir : String) (ids : List String) :
    List (String × Img) :=
  ids.flatMap fun t =>
    (create_alternate_icon dirs t output_dir 120).1.toList
      ++ (create_alternate_icon dirs t output_dir 180).1.toList

/-! ### Script-level behavior -/

/-- Outcome of running a script: either it completes (with the files it
wrote and its console output), or it dies with an uncaught exception
before reaching any handler. -/
inductive RunOutcome where
  | completed (files : List (String × Img)) (output : List String)
  | uncaughtImportError

/-- Files written by an outcome. -/
def RunOutcome.filesOf : RunOutcome → List (String × Img)
  | .completed fs _ => fs
  | .uncaughtImportError => []

/-- Console lines printed by an outcome (an uncaught module-level
`ImportError` aborts before any `print` runs). -/
def RunOutcome.outputOf : RunOutcome → List String
  | .completed _ out => out
  | .uncaughtImportError => []

/-- Running `generate_alternate_icons.py` as a script.  The
`from PIL import ...` at line 7 executes at module load, before
`__main__` and its `try`/`except ImportError`; with Pillow missing the
`ImportError` is therefore uncaught and nothing is printed or
written. -/
def runAlternateScript (dirs : ℕ → ℚ × ℚ) (pilAvailable : Bool) : RunOutcome :=
  if pilAvailable then
    .completed (batchFiles dirs "VoiceIt/Icons" icon_types)
      ((icon_types.flatMap fun t =>
          (create_alternate_icon dirs t "VoiceIt/Icons" 120).2
            ++ (create_alternate_icon dirs t "VoiceIt/Icons" 180).2)
        ++ ["🎉 All alternate icons generated successfully!"])
  else .uncaughtImportError

/-- Running `generate_icon.py` as a script: the `from PIL import ...`
at line 6 likewise precedes the `try` in `__main__`, so a missing
Pillow is an uncaught `ImportError`. -/
def runPrimaryScript (pilAvailable : Bool) : RunOutcome :=
  if pilAvailable then
    .completed [(defaultIconPath, (create_app_icon defaultIconPath 1024).1)]
      ((create_app_icon defaultIconPath 1024).2
        ++ ["🎉 App icon generated successfully!",
          "📱 The icon will appear when you build the app."])
  else .uncaughtImportError

/-! ### Top-level exception handlers -/

/-- A console line: ordinary text or the stack trace emitted by
`traceback.print_exc()`. -/
inductive OutLine where
  | text (s : String)
  | traceDump
  deriving DecidableEq

/-- An exception raised inside the `try` body. -/
inductive PyExc where
  | importError
  | otherExc (msg : String)
  deriving DecidableEq

/-- Whether the script process terminated normally (exception handled)
or crashed. -/
inductive RunEnd where
  | normalExit
  | crash
  deriving DecidableEq

/-- The `__main__` handler of `generate_icon.py`: any exception raised
by `create_app_icon` is caught by `except Exception`, which prints the
error message and a Pillow installation hint — but no stack trace. -/
def primaryMainRun (res : Option String) : RunEnd × List OutLine :=
  match res with
  | none =>
      (.normalExit,
        [.text "🎉 App icon generated successfully!",
          .text "📱 The icon will appear when you build the app."])
  | some m =>
      (.normalExit,
        [.text ("❌ Error: " ++ m),
          .text "💡 To fix this, install Pillow:",
          .text "   pip3 install Pillow"])

/-- The `__main__` handler of `generate_alternate_icons.py`: an
`ImportError` raised inside `main` gets the Pillow message; any other
exception is printed followed by `traceback.print_exc()`. -/
def alternateMainRun (res : Option PyExc) : RunEnd × List OutLine :=
  match res with
  | none => (.normalExit, [])
  | some .importError =>
      (.normalExit,
        [.text "❌ Error: PIL (Pillow) is not installed",
          .text "💡 To fix this, install Pillow:",
          .text "   pip3 install Pillow"])
  | some (.otherExc m) =>
      (.normalExit, [.text ("❌ Error: " ++ m), .traceDump])

/-- Whether a list of console lines contains a stack trace. -/
def isTraceLine : OutLine → Bool
  | .traceDump => true
  | .text _ => false

/-- `true` iff some printed line is a stack trace. -/
def hasTrace (ls : List OutLine) : Bool := ls.any isTraceLine

/-! ### Shape accessors (used to state the waveform layout claims) -/

/-- Leftmost x-coordinate of a primitive. -/
def Shape.xlo : Shape → ℚ
  | .rrect x0 _ _ _ _ => x0
  | .rect x0 _ _ _ => x0
  | .ell x0 _ _ _ => x0
  | .seg a _ _ => a.1
  | .tri a _ _ => a.1

/-- Rightmost x-coordinate of a primitive. -/
def Shape.xhi : Shape → ℚ
  | .rrect _ _ x1 _ _ => x1
  | .rect _ _ x1 _ => x1
  | .ell _ _ x1 _ => x1
  | .seg _ b _ => b.1
  | .tri _ b _ => b.1

/-- Top y-coordinate of a primitive. -/
def Shape.ylo : Shape → ℚ
  | .rrect _ y0 _ _ _ => y0
  | .rect _ y0 _ _ => y0
  | .ell _ y0 _ _ => y0
  | .seg a _ _ => a.2
  | .tri a _ _ => a.2

/-- Bottom y-coordinate of a primitive. -/
def Shape.yhi : Shape → ℚ
  | .rrect _ _ _ y1 _ => y1
  | .rect _ _ _ y1 => y1
  | .ell _ _ _ y1 => y1
  | .seg _ b _ => b.2
  | .tri _ b _ => b.2

/-- Whether a primitive is a rounded rectangle. -/
def Shape.isRoundedBar : Shape → Bool
  | .rrect _ _ _ _ _ => true
  | _ => false

/-- Horizontal center of a primitive's extent. -/
def Shape.cX (s : Shape) : ℚ := (s.xlo + s.xhi) / 2

/-- The `k`-th shape of a drawer's list. -/
def shapeAt (items : List (Shape × Ink)) (k : ℕ) : Shape :=
  (items.getD k default).1

/-- The height-ratio list of the waveform bars in drawing order. -/
def ratioAt (k : ℕ) : ℚ := [1 / 2, 7 / 10, 1, 7 / 10, 1 / 2].getD k 0

/-- A concrete mirror-closed set of eight ray directions (stands in for
the `math.cos`/`math.sin` values in witnesses). -/
def dirsOct (i : ℕ) : ℚ × ℚ :=
  [((1 : ℚ), (0 : ℚ)), (1, 1), (0, 1), (-1, 1), (-1, 0), (-1, -1), (0, -1), (1, -1)].getD i (0, 0)

/-- Big-step relation of one `create_alternate_icon` invocation:
either the identifier is missing from `icon_configs` (error printed,
nothing written) or its configuration is rendered and saved.  Used to
state determinism of the renderer as a property of the relation. -/
inductive AltRender (dirs : ℕ → ℚ × ℚ) (output_dir : String) :
    String → ℕ → Option (String × Img) × List String → Prop where
  | unknown (t : String) (size : ℕ) (h : iconConfigs.lookup t = none) :
      AltRender dirs output_dir t size (none, ["❌ Unknown icon type: " ++ t])
  | known (t : String) (size : ℕ) (c1 c2 : RGBc) (g : GlyphKind)
      (h : iconConfigs.lookup t = some (c1, c2, g)) :
      AltRender dirs output_dir t size
        (some (output_dir ++ "/" ++ fileName t size,
          drawShapes (create_gradient size size c1 c2)
            (glyphShapes dirs g ((size / 2 : ℕ) : ℤ) ((size / 2 : ℕ) : ℤ) (size / 2) whiteInkA)),
          ["✅ Created " ++ t ++ " icon: " ++ (output_dir ++ "/" ++ fileName t size)])

/-- Big-step relation of one `create_app_icon` invocation. -/
inductive PrimaryRender : String → ℕ → Img × List String → Prop where
  | run (path : String) (size : ℕ) : PrimaryRender path size (create_app_icon path size)

/-! ### Mirror equations for the drawer components (claim C3) -/

/-! ### Verification -/

lemma muldiv255_err (a b : ℕ) (ha : a ≤ 255) (hb : b ≤ 255) :
    255 * muldiv255 a b ≤ a * b + 127 ∧ a * b ≤ 255 * muldiv255 a b + 127 := by
  have hq : a * b ≤ 65025 := Nat.mul_le_mul ha hb
  unfold muldiv255
  generalize a * b = q at hq ⊢
  omega

lemma muldiv255_self (a : ℕ) (ha : a ≤ 255) : muldiv255 a 255 = a := by
  unfold muldiv255
  have h : a * 255 ≤ 65025 := by omega
  omega

lemma muldiv255_zero (a : ℕ) : muldiv255 a 0 = 0 := by
  unfold muldiv255
  omega

lemma blendCh_zero (old new : ℕ) (h : old ≤ 255) : blendCh 0 old new = old := by
  unfold blendCh
  rw [muldiv255_zero]
  simpa using muldiv255_self old h

lemma blendCh_full (old new : ℕ) (h : new ≤ 255) : blendCh 255 old new = new := by
  unfold blendCh
  simp [muldiv255_zero, muldiv255_self new h]

/-- Core estimate for C4: the blended gradient pixel at row `y` is the
linear interpolation of the two channels with weight `y/h`, up to an
absolute error of `2`. -/
lemma blend_interp (h y c1 c2 : ℕ) (hh : 0 < h) (hy : y < h)
    (h1 : c1 ≤ 255) (h2 : c2 ≤ 255) :
    |(blendCh (gradMask h y) c1 c2 : ℤ) * h - ((c1 : ℤ) * ((h : ℤ) - y) + (c2 : ℤ) * y)| ≤ 2 * h := by
  simp only [blendCh, gradMask]
  have hcomm : h * (255 * y / h) = 255 * y / h * h := Nat.mul_comm _ _
  have hdm : 255 * y / h * h + 255 * y % h = 255 * y := by
    rw [← hcomm]
    exact Nat.div_add_mod _ _
  have hmod : 255 * y % h < h := Nat.mod_lt _ hh
  clear hcomm
  generalize hm_def : 255 * y / h = m at hdm ⊢
  have hm_le : m * h ≤ 255 * y := by omega
  have hm_ub : 255 * y < m * h + h := by omega
  have hm255 : m ≤ 255 := by
    rcases Nat.lt_or_ge m 256 with hlt | hge
    · omega
    · exfalso
      have h256 : 256 * h ≤ m * h := Nat.mul_le_mul_right h hge
      have hy' : 255 * y ≤ 255 * (h - 1) := Nat.mul_le_mul_left 255 (by omega)
      omega
  obtain ⟨e1a, e1b⟩ := muldiv255_err c1 (255 - m) h1 (by omega)
  obtain ⟨e2a, e2b⟩ := muldiv255_err c2 m h2 hm255
  generalize hu_def : muldiv255 c1 (255 - m) = u at e1a e1b ⊢
  generalize hv_def : muldiv255 c2 m = v at e2a e2b ⊢
  -- integer versions of all facts
  have hMHle : (m : ℤ) * h ≤ 255 * y := by exact_mod_cast hm_le
  have hMHub : (255 : ℤ) * y < (m : ℤ) * h + h := by exact_mod_cast hm_ub
  zify [hm255] at e1a e1b e2a e2b
  have hz1a : (255 : ℤ) * u ≤ (c1 : ℤ) * (255 - (m : ℤ)) + 127 := by linarith
  have hz1b : (c1 : ℤ) * (255 - (m : ℤ)) ≤ 255 * (u : ℤ) + 127 := by linarith
  have hz2a : (255 : ℤ) * v ≤ (c2 : ℤ) * m + 127 := by linarith
  have hz2b : (c2 : ℤ) * m ≤ 255 * (v : ℤ) + 127 := by linarith
  have hHz : (0 : ℤ) < (h : ℤ) := by exact_mod_cast hh
  have hc1z : (0 : ℤ) ≤ (c1 : ℤ) := by positivity
  have hc2z : (0 : ℤ) ≤ (c2 : ℤ) := by positivity
  have hc1u : (c1 : ℤ) ≤ 255 := by exact_mod_cast h1
  have hc2u : (c2 : ℤ) ≤ 255 := by exact_mod_cast h2
  -- bounds on the interpolation defect P = (c2 - c1) * (m*h - 255*y)
  have hbneg : (m : ℤ) * h - 255 * y ≤ 0 := by linarith
  have hblow : -((h : ℤ) - 1) ≤ (m : ℤ) * h - 255 * y := by linarith
  have k1 : (0 : ℤ) ≤ (((c2 : ℤ) - c1) + 255) * (-((m : ℤ) * h - 255 * y)) :=
    mul_nonneg (by linarith) (by linarith)
  have k2 : (0 : ℤ) ≤ (255 - ((c2 : ℤ) - c1)) * (-((m : ℤ) * h - 255 * y)) :=
    mul_nonneg (by linarith) (by linarith)
  have k1e : (((c2 : ℤ) - c1) + 255) * (-((m : ℤ) * h - 255 * y))
      = -(((c2 : ℤ) - c1) * ((m : ℤ) * h - 255 * y)) - 255 * ((m : ℤ) * h - 255 * y) := by ring
  have k2e : (255 - ((c2 : ℤ) - c1)) * (-((m : ℤ) * h - 255 * y))
      = ((c2 : ℤ) - c1) * ((m : ℤ) * h - 255 * y) - 255 * ((m : ℤ) * h - 255 * y) := by ring
  rw [k1e] at k1
  rw [k2e] at k2
  have hPle : ((c2 : ℤ) - c1) * ((m : ℤ) * h - 255 * y) ≤ 255 * ((h : ℤ) - 1) := by linarith
  have hPge : -(255 * ((h : ℤ) - 1)) ≤ ((c2 : ℤ) - c1) * ((m : ℤ) * h - 255 * y) := by linarith
  -- the defect D = 255*(u+v) - (c1*(255-m) + c2*m) satisfies |D| ≤ 254
  have hD1 : (255 : ℤ) * ((u : ℤ) + v) - ((c1 : ℤ) * (255 - (m : ℤ)) + (c2 : ℤ) * m) ≤ 254 := by
    linarith
  have hD2 : (-254 : ℤ) ≤ 255 * ((u : ℤ) + v) - ((c1 : ℤ) * (255 - (m : ℤ)) + (c2 : ℤ) * m) := by
    linarith
  have hDh1 : ((255 : ℤ) * ((u : ℤ) + v) - ((c1 : ℤ) * (255 - (m : ℤ)) + (c2 : ℤ) * m)) * h
      ≤ 254 * h := mul_le_mul_of_nonneg_right hD1 (le_of_lt hHz)
  have hDh2 : (-254 : ℤ) * h
      ≤ ((255 : ℤ) * ((u : ℤ) + v) - ((c1 : ℤ) * (255 - (m : ℤ)) + (c2 : ℤ) * m)) * h :=
    mul_le_mul_of_nonneg_right hD2 (le_of_lt hHz)
  have hkey : (255 : ℤ) * (((u : ℤ) + v) * h - ((c1 : ℤ) * ((h : ℤ) - y) + (c2 : ℤ) * y))
      = ((255 : ℤ) * ((u : ℤ) + v) - ((c1 : ℤ) * (255 - (m : ℤ)) + (c2 : ℤ) * m)) * h
        + ((c2 : ℤ) - c1) * ((m : ℤ) * h - 255 * y) := by ring
  have hcastuv : ((u + v : ℕ) : ℤ) = (u : ℤ) + v := by push_cast; ring
  rw [hcastuv, abs_le]
  constructor
  · linarith
  · linarith

/-- C4: for every positive height and 8-bit color pair, the gradient's
pixel at row `y` depends only on `y` (uniform across each row), row 0
is exactly the top color, every row is the `y/h`-interpolation of the
two colors up to rounding tolerance `2`, and the bottom row is within
`|c1-c2|/h + 2` of the bottom color. -/
theorem c4_gradient (w h : ℕ) (c1 c2 : RGBc) (hh : 0 < h)
    (hc1 : ∀ i, c1 i ≤ 255) (hc2 : ∀ i, c2 i ≤ 255)
    (x x' y : ℕ) (i : Fin 3) (hy : y < h) :
    (create_gradient w h c1 c2).pix x y i = (create_gradient w h c1 c2).pix x' y i
    ∧ (create_gradient w h c1 c2).pix x 0 i = c1 i
    ∧ |((create_gradient w h c1 c2).pix x y i : ℤ) * h
        - ((c1 i : ℤ) * ((h : ℤ) - y) + (c2 i : ℤ) * y)| ≤ 2 * h
    ∧ |((create_gradient w h c1 c2).pix x (h - 1) i : ℤ) - (c2 i : ℤ)| * h
        ≤ |(c1 i : ℤ) - (c2 i : ℤ)| + 2 * h := by
  refine ⟨rfl, ?_, ?_, ?_⟩
  · show blendCh (gradMask h 0) (c1 i) (c2 i) = c1 i
    have : gradMask h 0 = 0 := by simp [gradMask]
    rw [this]
    exact blendCh_zero _ _ (hc1 i)
  · exact blend_interp h y (c1 i) (c2 i) hh hy (hc1 i) (hc2 i)
  · have hlast : h - 1 < h := by omega
    have hmain := blend_interp h (h - 1) (c1 i) (c2 i) hh hlast (hc1 i) (hc2 i)
    have hcast : ((h - 1 : ℕ) : ℤ) = (h : ℤ) - 1 := by
      have := Nat.cast_sub (R := ℤ) (by omega : 1 ≤ h)
      simpa using this
    rw [hcast] at hmain
    have hBeq : (create_gradient w h c1 c2).pix x (h - 1) i
        = blendCh (gradMask h (h - 1)) (c1 i) (c2 i) := rfl
    rw [hBeq]
    set B : ℤ := (blendCh (gradMask h (h - 1)) (c1 i) (c2 i) : ℤ) with hB
    have hHnn : (0 : ℤ) ≤ (h : ℤ) := by positivity
    have htri : |B - (c2 i : ℤ)| * h = |B * h - (c2 i : ℤ) * h| := by
      calc |B - (c2 i : ℤ)| * (h : ℤ) = |B - (c2 i : ℤ)| * |(h : ℤ)| := by
            rw [abs_of_nonneg hHnn]
        _ = |(B - (c2 i : ℤ)) * h| := (abs_mul _ _).symm
        _ = |B * h - (c2 i : ℤ) * h| := by ring_nf
    rw [htri]
    have hsplit : B * h - (c2 i : ℤ) * h
        = (B * h - ((c1 i : ℤ) * ((h : ℤ) - ((h : ℤ) - 1)) + (c2 i : ℤ) * ((h : ℤ) - 1)))
          + (((c1 i : ℤ) - (c2 i : ℤ))) := by ring
    rw [hsplit]
    calc |_ + _| ≤ _ + |(c1 i : ℤ) - (c2 i : ℤ)| := abs_add _ _
      _ ≤ |(c1 i : ℤ) - (c2 i : ℤ)| + 2 * h := by
          have := hmain
          linarith [abs_nonneg ((c1 i : ℤ) - (c2 i : ℤ))]

/-- Witness for C4 at `h = 2`, `y = 1` and concrete colors. -/
theorem c4_witness :
    (0 < 2
      ∧ (∀ i, (![200, 0, 0] : RGBc) i ≤ 255) ∧ (∀ i, (![0, 100, 0] : RGBc) i ≤ 255) ∧ 1 < 2)
    ∧ ((create_gradient 1 2 ![200, 0, 0] ![0, 100, 0]).pix 0 1 0
          = (create_gradient 1 2 ![200, 0, 0] ![0, 100, 0]).pix 1 1 0
      ∧ (create_gradient 1 2 ![200, 0, 0] ![0, 100, 0]).pix 0 0 0 = (![200, 0, 0] : RGBc) 0
      ∧ |((create_gradient 1 2 ![200, 0, 0] ![0, 100, 0]).pix 0 1 0 : ℤ) * 2
          - (((![200, 0, 0] : RGBc) 0 : ℤ) * ((2 : ℤ) - 1) + ((![0, 100, 0] : RGBc) 0 : ℤ) * 1)| ≤ 2 * 2
      ∧ |((create_gradient 1 2 ![200, 0, 0] ![0, 100, 0]).pix 0 (2 - 1) 0 : ℤ)
          - ((![0, 100, 0] : RGBc) 0 : ℤ)| * 2
          ≤ |(((![200, 0, 0] : RGBc) 0 : ℤ)) - ((![0, 100, 0] : RGBc) 0 : ℤ)| + 2 * 2) :=
  ⟨⟨by decide, by decide, by decide, by decide⟩,
    c4_gradient 1 2 ![200, 0, 0] ![0, 100, 0] (by decide) (by decide) (by decide) 0 1 1 0 (by decide)⟩

lemma sq_neg (q : ℚ) : sq (-q) = sq q := by
  simp only [sq]
  ring

lemma reflectX_involutive (c : ℚ) (p : Pt) : reflectX c (reflectX c p) = p := by
  cases p with
  | mk px py =>
      simp only [reflectX, Prod.mk.injEq]
      exact ⟨by ring, trivial⟩

lemma inBox_reflect (c x0 y0 x1 y1 : ℚ) (p : Pt) :
    inBox (2 * c - x1) y0 (2 * c - x0) y1 p ↔ inBox x0 y0 x1 y1 (reflectX c p) := by
  simp only [inBox, reflectX]
  constructor <;> rintro ⟨h1, h2, h3, h4⟩ <;> exact ⟨by linarith, by linarith, h3, h4⟩

lemma inDisc_reflect (c a b r : ℚ) (p : Pt) :
    inDisc (2 * c - a) b r p ↔ inDisc a b r (reflectX c p) := by
  simp only [inDisc, reflectX, sq]
  rw [show (p.1 - (2 * c - a)) * (p.1 - (2 * c - a))
      = (2 * c - p.1 - a) * (2 * c - p.1 - a) from by ring]

lemma edge_reflect (c : ℚ) (a b p : Pt) :
    edge (reflectX c a) (reflectX c b) p = -edge a b (reflectX c p) := by
  simp only [edge, reflectX]
  ring

lemma edge_flip (a b p : Pt) : edge b a p = -edge a b p := by
  simp only [edge]
  ring

lemma d2_reflect (c : ℚ) (p q : Pt) : d2 p (reflectX c q) = d2 (reflectX c p) q := by
  obtain ⟨px, py⟩ := p
  obtain ⟨qx, qy⟩ := q
  simp only [d2, reflectX, sq]
  ring

lemma segNear_reflect (c : ℚ) (a b : Pt) (w : ℚ) (p : Pt) :
    segNear (reflectX c a) (reflectX c b) w p ↔ segNear a b w (reflectX c p) := by
  obtain ⟨ax, ay⟩ := a
  obtain ⟨bx, byy⟩ := b
  obtain ⟨px, py⟩ := p
  simp only [segNear, reflectX, d2, sq]
  constructor <;> rintro (⟨h1, h2⟩ | ⟨h1, h2⟩ | ⟨h1, h2, h3⟩)
  · exact Or.inl ⟨by linarith, by linarith⟩
  · exact Or.inr (Or.inl ⟨by linarith, by linarith⟩)
  · exact Or.inr (Or.inr ⟨by linarith, by linarith, by linarith⟩)
  · exact Or.inl ⟨by linarith, by linarith⟩
  · exact Or.inr (Or.inl ⟨by linarith, by linarith⟩)
  · exact Or.inr (Or.inr ⟨by linarith, by linarith, by linarith⟩)

/-- Reflecting a primitive across `x = c` carries its region to the
reflected region. -/
lemma inShape_mirror (c : ℚ) (s : Shape) (p : Pt) :
    inShape (mirrorShape c s) p ↔ inShape s (reflectX c p) := by
  cases s with
  | rrect x0 y0 x1 y1 r =>
      obtain ⟨px, py⟩ := p
      simp only [inShape, mirrorShape, inBox, inDisc, sq, reflectX]
      constructor <;> rintro (⟨h1, h2, h3, h4⟩ | ⟨h1, h2, h3, h4⟩ | h | h | h | h)
      · exact Or.inl ⟨by linarith, by linarith, h3, h4⟩
      · exact Or.inr (Or.inl ⟨by linarith, by linarith, h3, h4⟩)
      · exact Or.inr (Or.inr (Or.inr (Or.inl (by linarith))))
      · exact Or.inr (Or.inr (Or.inl (by linarith)))
      · exact Or.inr (Or.inr (Or.inr (Or.inr (Or.inr (by linarith)))))
      · exact Or.inr (Or.inr (Or.inr (Or.inr (Or.inl (by linarith)))))
      · exact Or.inl ⟨by linarith, by linarith, h3, h4⟩
      · exact Or.inr (Or.inl ⟨by linarith, by linarith, h3, h4⟩)
      · exact Or.inr (Or.inr (Or.inr (Or.inl (by linarith))))
      · exact Or.inr (Or.inr (Or.inl (by linarith)))
      · exact Or.inr (Or.inr (Or.inr (Or.inr (Or.inr (by linarith)))))
      · exact Or.inr (Or.inr (Or.inr (Or.inr (Or.inl (by linarith)))))
  | rect x0 y0 x1 y1 =>
      simp only [inShape, mirrorShape]
      exact inBox_reflect c x0 y0 x1 y1 p
  | ell x0 y0 x1 y1 =>
      obtain ⟨px, py⟩ := p
      simp only [inShape, mirrorShape, reflectX, sq]
      constructor <;> intro h <;> linarith
  | seg a b w =>
      simp only [inShape, mirrorShape]
      exact segNear_reflect c a b w p
  | tri a b c' =>
      simp only [inShape, mirrorShape]
      rw [edge_reflect, edge_reflect, edge_reflect]
      constructor <;> rintro (⟨h1, h2, h3⟩ | ⟨h1, h2, h3⟩)
      · exact Or.inr ⟨by linarith, by linarith, by linarith⟩
      · exact Or.inl ⟨by linarith, by linarith, by linarith⟩
      · exact Or.inr ⟨by linarith, by linarith, by linarith⟩
      · exact Or.inl ⟨by linarith, by linarith, by linarith⟩

/-- Swapping the first two vertices of a triangle does not change its
region. -/
lemma tri_swap (a b c p : Pt) : inShape (.tri b a c) p ↔ inShape (.tri a b c) p := by
  simp only [inShape]
  rw [edge_flip a b p, edge_flip c a p, edge_flip b c p]
  constructor <;> rintro (⟨h1, h2, h3⟩ | ⟨h1, h2, h3⟩)
  · exact Or.inr ⟨by linarith, by linarith, by linarith⟩
  · exact Or.inl ⟨by linarith, by linarith, by linarith⟩
  · exact Or.inr ⟨by linarith, by linarith, by linarith⟩
  · exact Or.inl ⟨by linarith, by linarith, by linarith⟩

/-- If every shape of a list has a mirror-equivalent member in the
list, the covered region is symmetric across `x = c`. -/
lemma covered_reflect (c : ℚ) (items : List (Shape × Ink))
    (H : ∀ si ∈ items, ∃ ti ∈ items, ∀ q, inShape ti.1 q ↔ inShape (mirrorShape c si.1) q) :
    ∀ p, covered items (reflectX c p) ↔ covered items p := by
  have dir : ∀ p, covered items p → covered items (reflectX c p) := by
    rintro p ⟨si, hmem, hin⟩
    obtain ⟨ti, htmem, hteq⟩ := H si hmem
    refine ⟨ti, htmem, ?_⟩
    rw [hteq, inShape_mirror]
    rwa [reflectX_involutive]
  intro p
  constructor
  · intro h
    have := dir (reflectX c p) h
    rwa [reflectX_involutive] at this
  · exact dir p

lemma drawShapes_width (items : List (Shape × Ink)) (img : Img) :
    (drawShapes img items).width = img.width := by
  induction items generalizing img with
  | nil => rfl
  | cons hd tl ih => exact ih (drawShape hd.2 img hd.1)

lemma drawShapes_height (items : List (Shape × Ink)) (img : Img) :
    (drawShapes img items).height = img.height := by
  induction items generalizing img with
  | nil => rfl
  | cons hd tl ih => exact ih (drawShape hd.2 img hd.1)

lemma drawShapes_hasAlpha (items : List (Shape × Ink)) (img : Img) :
    (drawShapes img items).hasAlpha = img.hasAlpha := by
  induction items generalizing img with
  | nil => rfl
  | cons hd tl ih => exact ih (drawShape hd.2 img hd.1)

lemma drawShapes_frame (items : List (Shape × Ink)) (img : Img) (x y : ℕ)
    (h : ¬ covered items ((x : ℚ), (y : ℚ))) :
    (drawShapes img items).pix x y = img.pix x y := by
  induction items generalizing img with
  | nil => rfl
  | cons hd tl ih =>
      have hhd : ¬ inShape hd.1 ((x : ℚ), (y : ℚ)) := by
        intro hc
        exact h ⟨hd, List.mem_cons_self _ _, hc⟩
      have htl : ¬ covered tl ((x : ℚ), (y : ℚ)) := by
        rintro ⟨si, hmem, hin⟩
        exact h ⟨si, List.mem_cons_of_mem _ hmem, hin⟩
      calc (drawShapes img (hd :: tl)).pix x y
          = (drawShapes (drawShape hd.2 img hd.1) tl).pix x y := rfl
        _ = (drawShape hd.2 img hd.1).pix x y := ih (drawShape hd.2 img hd.1) htl
        _ = img.pix x y := by simp [drawShape, hhd]

/-- The function `create_alternate_icon` realizes the relation
`AltRender` (totality of the relational model). -/
lemma altRender_complete (dirs : ℕ → ℚ × ℚ) (t output_dir : String) (size : ℕ) :
    AltRender dirs output_dir t size (create_alternate_icon dirs t output_dir size) := by
  rcases hl : iconConfigs.lookup t with - | ⟨c1, c2, g⟩
  · have he : create_alternate_icon dirs t output_dir size
        = (none, ["❌ Unknown icon type: " ++ t]) := by
      simp [create_alternate_icon, hl]
    rw [he]
    exact .unknown t size hl
  · have he : create_alternate_icon dirs t output_dir size
        = (some (output_dir ++ "/" ++ fileName t size,
            drawShapes (create_gradient size size c1 c2)
              (glyphShapes dirs g ((size / 2 : ℕ) : ℤ) ((size / 2 : ℕ) : ℤ) (size / 2) whiteInkA)),
            ["✅ Created " ++ t ++ " icon: " ++ (output_dir ++ "/" ++ fileName t size)]) := by
      simp [create_alternate_icon, hl]
    rw [he]
    exact .known t size c1 c2 g hl

/-- C1 (corrected): the counterexample to the claim as stated — the
alternate icon generated for `"Calculator"` at size 120 is saved from a
mode-`'RGB'` image, so the written PNG has NO alpha channel (the
`'RGBA'` argument of `ImageDraw.Draw` only selects draw-time
blending). -/
theorem c1_counterexample :
    ((create_alternate_icon dirsOct "Calculator" "VoiceIt/Icons" 120).1.map
        fun fi => fi.2.hasAlpha) = some false := by
  have h : (create_alternate_icon dirsOct "Calculator" "VoiceIt/Icons" 120).1.map
      (fun fi => fi.2.hasAlpha)
      = some ((drawShapes (create_gradient 120 120 ![100, 120, 140] ![140, 160, 180])
          (glyphShapes dirsOct .calculator 60 60 60 whiteInkA)).hasAlpha) := rfl
  rw [h, drawShapes_hasAlpha]
  rfl

/-- C1 (amended): for each configured identifier and each size in
{120, 180}, alternate-icon generation writes exactly one file named
`{Identifier}@{scale}x.png` (scale = size/60, i.e. `@2x` for 120 and
`@3x` for 180) under the output directory, whose image is size×size
pixels, RGB without an alpha channel; a success line is printed. -/
theorem c1_amended (dirs : ℕ → ℚ × ℚ) (output_dir t : String) (size : ℕ)
    (ht : t ∈ icon_types) (hs : size = 120 ∨ size = 180) :
    (∃ img : Img,
      create_alternate_icon dirs t output_dir size
        = (some (output_dir ++ "/" ++ fileName t size, img),
            ["✅ Created " ++ t ++ " icon: " ++ (output_dir ++ "/" ++ fileName t size)])
      ∧ img.width = size ∧ img.height = size ∧ img.hasAlpha = false)
    ∧ fileName "Calculator" 120 = "Calculator@2x.png"
    ∧ fileName "Calculator" 180 = "Calculator@3x.png"
    ∧ fileName "Weather" 120 = "Weather@2x.png"
    ∧ fileName "Weather" 180 = "Weather@3x.png"
    ∧ fileName "Notes" 120 = "Notes@2x.png"
    ∧ fileName "Notes" 180 = "Notes@3x.png"
    ∧ fileName "Wellness" 120 = "Wellness@2x.png"
    ∧ fileName "Wellness" 180 = "Wellness@3x.png" := by
  refine ⟨?_, rfl, rfl, rfl, rfl, rfl, rfl, rfl, rfl⟩
  fin_cases ht <;> rcases hs with rfl | rfl <;>
    exact ⟨_, rfl, (drawShapes_width _ _).trans rfl, (drawShapes_height _ _).trans rfl,
      (drawShapes_hasAlpha _ _).trans rfl⟩

/-- Witness for C1 at identifier `"Calculator"`, size 120. -/
theorem c1_witness :
    ("Calculator" ∈ icon_types ∧ ((120 : ℕ) = 120 ∨ (120 : ℕ) = 180))
    ∧ ((∃ img : Img,
        create_alternate_icon dirsOct "Calculator" "VoiceIt/Icons" 120
          = (some ("VoiceIt/Icons" ++ "/" ++ fileName "Calculator" 120, img),
              ["✅ Created " ++ "Calculator" ++ " icon: "
                ++ ("VoiceIt/Icons" ++ "/" ++ fileName "Calculator" 120)])
        ∧ img.width = 120 ∧ img.height = 120 ∧ img.hasAlpha = false)
      ∧ fileName "Calculator" 120 = "Calculator@2x.png"
      ∧ fileName "Calculator" 180 = "Calculator@3x.png"
      ∧ fileName "Weather" 120 = "Weather@2x.png"
      ∧ fileName "Weather" 180 = "Weather@3x.png"
      ∧ fileName "Notes" 120 = "Notes@2x.png"
      ∧ fileName "Notes" 180 = "Notes@3x.png"
      ∧ fileName "Wellness" 120 = "Wellness@2x.png"
      ∧ fileName "Wellness" 180 = "Wellness@3x.png") :=
  ⟨⟨by decide, Or.inl rfl⟩,
    c1_amended dirsOct "VoiceIt/Icons" "Calculator" 120 (by decide) (Or.inl rfl)⟩

/-- C2 (code_bug): evaluating the scripts with Pillow unavailable.
The module-level `from PIL import ...` (line 6 of `generate_icon.py`,
line 7 of `generate_alternate_icons.py`) raises before `__main__`'s
`try` is ever entered, so the run ends in an uncaught `ImportError`:
no dependency-missing message is printed (contradicting the claim's
first half) and no file is written (its second half holds). -/
theorem c2_code_behavior (dirs : ℕ → ℚ × ℚ) :
    runAlternateScript dirs false = RunOutcome.uncaughtImportError
    ∧ runPrimaryScript false = RunOutcome.uncaughtImportError
    ∧ (runAlternateScript dirs false).filesOf = []
    ∧ (runAlternateScript dirs false).outputOf = []
    ∧ (runPrimaryScript false).filesOf = []
    ∧ (runPrimaryScript false).outputOf = [] :=
  ⟨rfl, rfl, rfl, rfl, rfl, rfl⟩

/-- C5: every identifier absent from the fixed `icon_configs` mapping
(e.g. `"Sports"`) makes `create_alternate_icon` print a console error,
write no file, and return normally; inserting such an identifier
anywhere in a batch leaves the files generated for every other batched
identifier unchanged. -/
theorem c5_unknown_identifier (dirs : ℕ → ℚ × ℚ) (output_dir : String) (size : ℕ)
    (t : String) (l1 l2 : List String) (hl : iconConfigs.lookup t = none) :
    (create_alternate_icon dirs t output_dir size).1 = none
    ∧ (create_alternate_icon dirs t output_dir size).2
        = ["❌ Unknown icon type: " ++ t]
    ∧ batchFiles dirs output_dir (l1 ++ t :: l2)
        = batchFiles dirs output_dir (l1 ++ l2) := by
  have hnone : ∀ size' : ℕ, (create_alternate_icon dirs t output_dir size').1 = none := by
    intro size'
    simp [create_alternate_icon, hl]
  refine ⟨hnone size, ?_, ?_⟩
  · simp [create_alternate_icon, hl]
  · simp only [batchFiles, List.flatMap_append, List.flatMap_cons]
    rw [hnone 120, hnone 180]
    simp

/-- Witness for C5 at the unconfigured identifier `"Sports"`, size
120, batched between `"Calculator"` and `"Weather"`. -/
theorem c5_witness :
    iconConfigs.lookup "Sports" = none
    ∧ ((create_alternate_icon dirsOct "Sports" "VoiceIt/Icons" 120).1 = none
      ∧ (create_alternate_icon dirsOct "Sports" "VoiceIt/Icons" 120).2
          = ["❌ Unknown icon type: " ++ "Sports"]
      ∧ batchFiles dirsOct "VoiceIt/Icons" (["Calculator"] ++ "Sports" :: ["Weather"])
          = batchFiles dirsOct "VoiceIt/Icons" (["Calculator"] ++ ["Weather"])) :=
  ⟨rfl, c5_unknown_identifier dirsOct "VoiceIt/Icons" 120 "Sports" ["Calculator"] ["Weather"] rfl⟩

/-- C7: rendering is deterministic — the big-step render relations of
both scripts are functional: two runs on identical inputs produce the
same optional output file, image and console lines (no randomness or
hidden input in any drawer or in the gradient generator). -/
theorem c7_determinism :
    (∀ (dirs : ℕ → ℚ × ℚ) (output_dir t : String) (size : ℕ)
        (o₁ o₂ : Option (String × Img) × List String),
        AltRender dirs output_dir t size o₁ → AltRender dirs output_dir t size o₂ → o₁ = o₂)
    ∧ (∀ (path : String) (size : ℕ) (r₁ r₂ : Img × List String),
        PrimaryRender path size r₁ → PrimaryRender path size r₂ → r₁ = r₂) := by
  constructor
  · rintro dirs output_dir t size o₁ o₂ h1 h2
    cases h1 with
    | unknown hl1 =>
        cases h2 with
        | unknown hl2 => rfl
        | known c1 c2 g hl2 =>
            rw [hl1] at hl2
            exact absurd hl2 (by simp)
    | known c1 c2 g hl1 =>
        cases h2 with
        | unknown hl2 =>
            rw [hl2] at hl1
            exact absurd hl1 (by simp)
        | known c1' c2' g' hl2 =>
            rw [hl1] at hl2
            have h := Option.some.inj hl2
            injection h with e1 h
            injection h with e2 e3
            subst e1
            subst e2
            subst e3
            rfl
  · rintro path size r₁ r₂ h1 h2
    cases h1
    cases h2
    rfl

/-- Witness for C7: two concrete derivations for the unknown
identifier `"Sports"` at size 120 have equal outputs. -/
theorem c7_witness :
    ((none, ["❌ Unknown icon type: " ++ "Sports"]) : Option (String × Img) × List String)
      = (none, ["❌ Unknown icon type: " ++ "Sports"]) :=
  c7_determinism.1 dirsOct "VoiceIt/Icons" "Sports" 120 _ _
    (AltRender.unknown "Sports" 120 rfl)
    (AltRender.unknown "Sports" 120 rfl)

/-- C8: the primary icon renderer produces, for every requested size,
an image of exactly that width and height in mode `'RGB'` (no alpha),
prints a success line, and draws the waveform at glyph size
`size // 2` (exactly half for even sizes, hence 512 at the default
1024); at the default path and size 1024 the output is 1024×1024. -/
theorem c8_primary :
    (∀ (path : String) (size : ℕ),
        (create_app_icon path size).1.width = size
        ∧ (create_app_icon path size).1.height = size
        ∧ (create_app_icon path size).1.hasAlpha = false
        ∧ ("✅ Created app icon: " ++ path) ∈ (create_app_icon path size).2
        ∧ (2 ∣ size → 2 * appIconGlyphSize size = size))
    ∧ (create_app_icon defaultIconPath 1024).1.width = 1024
    ∧ (create_app_icon defaultIconPath 1024).1.height = 1024
    ∧ (create_app_icon defaultIconPath 1024).1.hasAlpha = false
    ∧ appIconGlyphSize 1024 = 512 := by
  refine ⟨fun path size => ⟨?_, ?_, ?_, ?_, ?_⟩, ?_, ?_, ?_, rfl⟩
  · exact (drawShapes_width _ _).trans rfl
  · exact (drawShapes_height _ _).trans rfl
  · exact (drawShapes_hasAlpha _ _).trans rfl
  · exact List.mem_singleton_self _
  · rintro ⟨k, rfl⟩
    simp [appIconGlyphSize]
  · exact (drawShapes_width _ _).trans rfl
  · exact (drawShapes_height _ _).trans rfl
  · exact (drawShapes_hasAlpha _ _).trans rfl

/-- Witness for C8 at the default size 1024. -/
theorem c8_witness :
    (2 ∣ 1024 ∧ (create_app_icon defaultIconPath 1024).1.width = 1024)
    ∧ 2 * appIconGlyphSize 1024 = 1024 :=
  ⟨⟨by decide, (c8_primary.1 defaultIconPath 1024).1⟩,
    (c8_primary.1 defaultIconPath 1024).2.2.2.2 (by decide)⟩

/-- C9 (corrected): counterexample to the claim as stated — the
top-level handler of `generate_icon.py` catches a generic exception
(here with message "boom") and terminates normally, but its output
contains NO stack trace (it prints only the error and a Pillow hint);
only `generate_alternate_icons.py` calls `traceback.print_exc()`. -/
theorem c9_counterexample :
    hasTrace (primaryMainRun (some "boom")).2 = false
    ∧ (primaryMainRun (some "boom")).1 = RunEnd.normalExit :=
  ⟨rfl, rfl⟩

/-- C9 (amended): every exception raised inside the `try` of either
script is caught at top level and the process terminates normally with
the error message printed; the alternate-icon script additionally logs
a stack trace, while the primary script prints only the message and
a Pillow installation hint (no stack trace). -/
theorem c9_amended (m : String) :
    (primaryMainRun (some m)).1 = RunEnd.normalExit
    ∧ OutLine.text ("❌ Error: " ++ m) ∈ (primaryMainRun (some m)).2
    ∧ hasTrace (primaryMainRun (some m)).2 = false
    ∧ (alternateMainRun (some (.otherExc m))).1 = RunEnd.normalExit
    ∧ OutLine.text ("❌ Error: " ++ m) ∈ (alternateMainRun (some (.otherExc m))).2
    ∧ hasTrace (alternateMainRun (some (.otherExc m))).2 = true
    ∧ OutLine.traceDump ∈ (alternateMainRun (some (.otherExc m))).2 := by
  refine ⟨rfl, ?_, rfl, rfl, ?_, rfl, ?_⟩
  · simp [primaryMainRun]
  · simp [alternateMainRun]
  · simp [alternateMainRun]

/-- C10: stamping any drawer's glyph onto a canvas never changes the
canvas dimensions or mode, and every pixel not covered by one of the
drawer's primitive shapes keeps its previous (gradient) value. -/
theorem c10_frame :
    (∀ (items : List (Shape × Ink)) (img : Img),
        (drawShapes img items).width = img.width
        ∧ (drawShapes img items).height = img.height
        ∧ (drawShapes img items).hasAlpha = img.hasAlpha)
    ∧ (∀ (cx cy : ℤ) (size : ℕ) (ink : Ink) (img : Img) (x y : ℕ),
        ¬ covered (waveformShapes cx cy size ink) ((x : ℚ), (y : ℚ)) →
        (drawShapes img (waveformShapes cx cy size ink)).pix x y = img.pix x y)
    ∧ (∀ (cx cy : ℤ) (size : ℕ) (ink : Ink) (img : Img) (x y : ℕ),
        ¬ covered (calculatorShapes cx cy size ink) ((x : ℚ), (y : ℚ)) →
        (drawShapes img (calculatorShapes cx cy size ink)).pix x y = img.pix x y)
    ∧ (∀ (dirs : ℕ → ℚ × ℚ) (cx cy : ℤ) (size : ℕ) (ink : Ink) (img : Img) (x y : ℕ),
        ¬ covered (weatherShapes dirs cx cy size ink) ((x : ℚ), (y : ℚ)) →
        (drawShapes img (weatherShapes dirs cx cy size ink)).pix x y = img.pix x y)
    ∧ (∀ (cx cy : ℤ) (size : ℕ) (ink : Ink) (img : Img) (x y : ℕ),
        ¬ covered (notesShapes cx cy size ink) ((x : ℚ), (y : ℚ)) →
        (drawShapes img (notesShapes cx cy size ink)).pix x y = img.pix x y)
    ∧ (∀ (cx cy : ℤ) (size : ℕ) (ink : Ink) (img : Img) (x y : ℕ),
        ¬ covered (wellnessShapes cx cy size ink) ((x : ℚ), (y : ℚ)) →
        (drawShapes img (wellnessShapes cx cy size ink)).pix x y = img.pix x y) := by
  refine ⟨fun items img =>
      ⟨drawShapes_width items img, drawShapes_height items img, drawShapes_hasAlpha items img⟩,
    ?_, ?_, ?_, ?_, ?_⟩
  · intro cx cy size ink img x y h
    exact drawShapes_frame _ img x y h
  · intro cx cy size ink img x y h
    exact drawShapes_frame _ img x y h
  · intro dirs cx cy size ink img x y h
    exact drawShapes_frame _ img x y h
  · intro cx cy size ink img x y h
    exact drawShapes_frame _ img x y h
  · intro cx cy size ink img x y h
    exact drawShapes_frame _ img x y h

/-- Witness for C10: the waveform at a degenerate layout and a point
far outside every bar. -/
theorem c10_witness :
    (¬ covered (waveformShapes 0 0 0 whiteInkRGB) ((5 : ℚ), (5 : ℚ)))
    ∧ (drawShapes (create_gradient 1 1 voiceitPurple lighterPurple)
          (waveformShapes 0 0 0 whiteInkRGB)).pix 5 5
        = (create_gradient 1 1 voiceitPurple lighterPurple).pix 5 5 :=
  ⟨by norm_num [covered, waveformShapes, waveformBar, inShape, inBox, inDisc, sq],
    c10_frame.2.1 0 0 0 whiteInkRGB _ 5 5
      (by norm_num [covered, waveformShapes, waveformBar, inShape, inBox, inDisc, sq])⟩

/-- Floor bounds used for the waveform bar heights. -/
lemma two_floor_bounds (q : ℚ) : q - 2 < 2 * (⌊q / 2⌋ : ℚ) ∧ 2 * (⌊q / 2⌋ : ℚ) ≤ q := by
  have h1 := Int.floor_le (q / 2)
  have h2 := Int.lt_floor_add_one (q / 2)
  constructor <;> linarith

/-- C6: the waveform drawer issues exactly five rounded bars; in
drawing (left-to-right) order their height extents are the nominal
heights {0.5, 0.7, 1.0, 0.7, 0.5}·size up to the floor the drawing
arithmetic applies (strictly within 2), their vertical extents are
centered exactly on the center point, consecutive bar centers are the
constant distance `size//10 + size//12` apart, and the bar centers are
symmetric about the center x. -/
theorem c6_waveform (cx cy : ℤ) (size : ℕ) (ink : Ink) :
    (waveformShapes cx cy size ink).length = 5
    ∧ (∀ k, k < 5 → (shapeAt (waveformShapes cx cy size ink) k).isRoundedBar = true)
    ∧ (∀ k, k < 5 →
        (shapeAt (waveformShapes cx cy size ink) k).ylo
          + (shapeAt (waveformShapes cx cy size ink) k).yhi = 2 * (cy : ℚ))
    ∧ (∀ k, k < 5 →
        ratioAt k * (size : ℚ) - 2
            < (shapeAt (waveformShapes cx cy size ink) k).yhi
              - (shapeAt (waveformShapes cx cy size ink) k).ylo
        ∧ (shapeAt (waveformShapes cx cy size ink) k).yhi
              - (shapeAt (waveformShapes cx cy size ink) k).ylo ≤ ratioAt k * (size : ℚ))
    ∧ (∀ k, k + 1 < 5 →
        (shapeAt (waveformShapes cx cy size ink) (k + 1)).cX
          - (shapeAt (waveformShapes cx cy size ink) k).cX
          = ((size / 10 : ℕ) : ℚ) + ((size / 12 : ℕ) : ℚ))
    ∧ (∀ k, k < 5 →
        (shapeAt (waveformShapes cx cy size ink) k).cX
          + (shapeAt (waveformShapes cx cy size ink) (4 - k)).cX = 2 * (cx : ℚ)) := by
  refine ⟨rfl, ?_, ?_, ?_, ?_, ?_⟩
  · intro k hk
    interval_cases k <;> rfl
  · intro k hk
    interval_cases k <;>
      · simp [waveformShapes, waveformBar, shapeAt, Shape.ylo, Shape.yhi]
        push_cast
        ring
  · intro k hk
    interval_cases k
    · simp [waveformShapes, waveformBar, shapeAt, Shape.ylo, Shape.yhi, ratioAt]
      obtain ⟨hf1, hf2⟩ := two_floor_bounds ((size : ℚ) * 2⁻¹)
      constructor <;> linarith
    · simp [waveformShapes, waveformBar, shapeAt, Shape.ylo, Shape.yhi, ratioAt]
      obtain ⟨hf1, hf2⟩ := two_floor_bounds ((size : ℚ) * (7 / 10))
      constructor <;> linarith
    · simp [waveformShapes, waveformBar, shapeAt, Shape.ylo, Shape.yhi, ratioAt]
      obtain ⟨hf1, hf2⟩ := two_floor_bounds ((size : ℚ))
      constructor <;> linarith
    · simp [waveformShapes, waveformBar, shapeAt, Shape.ylo, Shape.yhi, ratioAt]
      obtain ⟨hf1, hf2⟩ := two_floor_bounds ((size : ℚ) * (7 / 10))
      constructor <;> linarith
    · simp [waveformShapes, waveformBar, shapeAt, Shape.ylo, Shape.yhi, ratioAt]
      obtain ⟨hf1, hf2⟩ := two_floor_bounds ((size : ℚ) * 2⁻¹)
      constructor <;> linarith
  · intro k hk
    have hk4 : k < 4 := by omega
    clear hk
    interval_cases k <;>
      · simp [waveformShapes, waveformBar, shapeAt, Shape.cX, Shape.xlo, Shape.xhi]
        push_cast
        ring_nf
        norm_cast
  · intro k hk
    interval_cases k <;>
      · simp [waveformShapes, waveformBar, shapeAt, Shape.cX, Shape.xlo, Shape.xhi]
        push_cast
        ring

/-- Witness for C6 at center (0, 0), glyph size 20. -/
theorem c6_witness :
    ((1 : ℕ) < 5)
    ∧ (ratioAt 1 * ((20 : ℕ) : ℚ) - 2
          < (shapeAt (waveformShapes 0 0 20 whiteInkRGB) 1).yhi
            - (shapeAt (waveformShapes 0 0 20 whiteInkRGB) 1).ylo
      ∧ (shapeAt (waveformShapes 0 0 20 whiteInkRGB) 1).yhi
            - (shapeAt (waveformShapes 0 0 20 whiteInkRGB) 1).ylo ≤ ratioAt 1 * ((20 : ℕ) : ℚ)) :=
  ⟨by decide, (c6_waveform 0 0 20 whiteInkRGB).2.2.2.1 1 (by decide)⟩

lemma mirror_waveformBar (cx cy : ℤ) (size : ℕ) (x : ℤ) (r : ℚ) :
    mirrorShape (cx : ℚ) (waveformBar cy size x r) = waveformBar cy size (2 * cx - x) r := by
  simp only [waveformBar, mirrorShape, Shape.rrect.injEq]
  refine ⟨by push_cast; ring, trivial, by push_cast; ring, trivial, trivial⟩

lemma waveformBar_region_mirror (cx cy : ℤ) (size : ℕ) (x x' : ℤ) (r : ℚ) (q : Pt)
    (hx : x + x' = 2 * cx) :
    inShape (waveformBar cy size x' r) q
      ↔ inShape (mirrorShape (cx : ℚ) (waveformBar cy size x r)) q := by
  rw [mirror_waveformBar]
  have he : 2 * cx - x = x' := by omega
  rw [he]

lemma mirror_calcButton (cx cy : ℤ) (size : ℕ) (row col : ℕ) (hcol : col ≤ 2) :
    mirrorShape ((cx : ℚ) + (((size / 7 : ℕ) : ℤ) : ℚ) / 2) (calcButton cx cy size row col)
      = calcButton cx cy size row (2 - col) := by
  simp only [calcButton, mirrorShape, Shape.rrect.injEq]
  refine ⟨?_, trivial, ?_, trivial, trivial⟩ <;>
    · push_cast [Nat.cast_sub hcol]
      ring

lemma mirror_weatherRay (dirs : ℕ → ℚ × ℚ) (cx cy : ℤ) (size : ℕ) (i : ℕ)
    (hdir : dirs ((12 - i) % 8) = (-(dirs i).1, (dirs i).2)) :
    mirrorShape (cx : ℚ) (weatherRay dirs cx cy size i)
      = weatherRay dirs cx cy size ((12 - i) % 8) := by
  simp only [weatherRay, mirrorShape, reflectX, Shape.seg.injEq, hdir, Prod.mk.injEq]
  refine ⟨⟨by push_cast; ring, trivial⟩, ⟨by push_cast; ring, trivial⟩, trivial⟩

lemma mirror_weatherSun (cx cy : ℤ) (size : ℕ) :
    mirrorShape (cx : ℚ) (weatherSun cx cy size) = weatherSun cx cy size := by
  simp only [weatherSun, mirrorShape, Shape.ell.injEq]
  refine ⟨by push_cast; ring, trivial, by push_cast; ring, trivial⟩

lemma mirror_weatherCloudLeft (cx cy : ℤ) (size : ℕ) :
    mirrorShape (cx : ℚ) (weatherCloudLeft cx cy size) = weatherCloudRight cx cy size := by
  simp only [weatherCloudLeft, weatherCloudRight, mirrorShape, Shape.ell.injEq]
  refine ⟨by push_cast; ring, trivial, by push_cast; ring, trivial⟩

lemma mirror_weatherCloudRight (cx cy : ℤ) (size : ℕ) :
    mirrorShape (cx : ℚ) (weatherCloudRight cx cy size) = weatherCloudLeft cx cy size := by
  simp only [weatherCloudLeft, weatherCloudRight, mirrorShape, Shape.ell.injEq]
  refine ⟨by push_cast; ring, trivial, by push_cast; ring, trivial⟩

lemma mirror_weatherCloudMid (cx cy : ℤ) (size : ℕ) :
    mirrorShape (cx : ℚ) (weatherCloudMid cx cy size) = weatherCloudMid cx cy size := by
  simp only [weatherCloudMid, mirrorShape, Shape.ell.injEq]
  refine ⟨by push_cast; ring, trivial, by push_cast; ring, trivial⟩

lemma mirror_wellnessLeft (cx cy : ℤ) (size : ℕ) :
    mirrorShape (cx : ℚ) (wellnessLeftEll cx cy size) = wellnessRightEll cx cy size := by
  simp only [wellnessLeftEll, wellnessRightEll, mirrorShape, Shape.ell.injEq]
  refine ⟨by push_cast; ring, trivial, by push_cast; ring, trivial⟩

lemma mirror_wellnessRight (cx cy : ℤ) (size : ℕ) :
    mirrorShape (cx : ℚ) (wellnessRightEll cx cy size) = wellnessLeftEll cx cy size := by
  simp only [wellnessLeftEll, wellnessRightEll, mirrorShape, Shape.ell.injEq]
  refine ⟨by push_cast; ring, trivial, by push_cast; ring, trivial⟩

lemma mirror_wellnessGap (cx cy : ℤ) (size : ℕ) :
    mirrorShape (cx : ℚ) (wellnessGap cx cy size) = wellnessGap cx cy size := by
  simp only [wellnessGap, mirrorShape, Shape.rect.injEq]
  refine ⟨by push_cast; ring, trivial, by push_cast; ring, trivial⟩

/-- A triangle whose first two vertices are mirror images of each
other and whose third vertex is on the axis has a mirror-symmetric
region. -/
lemma tri_mirror_region_of_swap (c : ℚ) (a b d : Pt) (hab : reflectX c a = b)
    (hd : reflectX c d = d) (q : Pt) :
    inShape (mirrorShape c (Shape.tri a b d)) q ↔ inShape (Shape.tri a b d) q := by
  have hstep : mirrorShape c (Shape.tri a b d)
      = Shape.tri (reflectX c a) (reflectX c b) (reflectX c d) := rfl
  have hba : reflectX c b = a := by
    rw [← hab, reflectX_involutive]
  rw [hstep, hab, hba, hd]
  exact tri_swap a b d q

lemma wellnessTri_mirror_region (cx cy : ℤ) (size : ℕ) (q : Pt) :
    inShape (mirrorShape (cx : ℚ) (wellnessTri cx cy size)) q
      ↔ inShape (wellnessTri cx cy size) q := by
  refine tri_mirror_region_of_swap (cx : ℚ) _ _ _ ?_ ?_ q
  · simp only [reflectX, Prod.mk.injEq]
    refine ⟨by push_cast; ring, trivial⟩
  · simp only [reflectX, Prod.mk.injEq]
    refine ⟨by push_cast; ring, trivial⟩

/-- C3 (corrected): counterexample to the claim as stated.  At center
(60, 60) and glyph size 60 (the 120×120 Calculator icon), the point
(80, 60) lies on a grid button while its reflection (40, 60) across
the vertical center line lies on no calculator shape, so the
calculator shape set is not symmetric about the center line; and at
glyph size 9 the display rectangle (x-extent 57..64) is not
horizontally centered on the center point either. -/
theorem c3_counterexample :
    covered (calculatorShapes 60 60 60 whiteInkA) ((80 : ℚ), (60 : ℚ))
    ∧ ¬ covered (calculatorShapes 60 60 60 whiteInkA) (reflectX 60 ((80 : ℚ), (60 : ℚ)))
    ∧ (calcDisplayShape 60 60 9).xlo + (calcDisplayShape 60 60 9).xhi ≠ 2 * (60 : ℚ) := by
  refine ⟨?_, ?_, ?_⟩
  · refine ⟨(calcButton 60 60 60 0 2, whiteInkA), ?_, ?_⟩
    · simp [calculatorShapes, calcButtonShapes]
      exact Or.inr ⟨0, by omega, 2, by omega, rfl⟩
    · norm_num [calcButton, inShape, inBox, inDisc, sq]
  · intro hcov
    obtain ⟨si, hsi, hin⟩ := hcov
    simp only [calculatorShapes, calcButtonShapes, List.mem_cons, List.mem_flatMap,
      List.mem_map, List.mem_range] at hsi
    rcases hsi with rfl | ⟨row, hrow, ⟨col, hcol, rfl⟩⟩
    · norm_num [calcDisplayShape, inShape, inBox, inDisc, sq, reflectX] at hin
    · interval_cases row <;> interval_cases col <;>
        norm_num [calcButton, inShape, inBox, inDisc, sq, reflectX] at hin
  · norm_num [calcDisplayShape, Shape.xlo, Shape.xhi]

/-- C3 (amended): the Waveform and Wellness shape sets are symmetric
about the vertical line through the center point; so is Weather
provided the eight ray directions are mirror-closed (exact 45°
multiples — the source approximates π by 3.14159, making the rays
symmetric only up to a sub-pixel deviation); the Calculator display is
symmetric about that line whenever its computed width `int(size*0.8)`
is even (true at both deployed sizes), but the 3×3 button grid is
symmetric about the line `x = center_x + button_size/2`, i.e. it sits
half a button to the right of center, so the Calculator glyph as a
whole is not centered. -/
theorem c3_amended :
    (∀ (cx cy : ℤ) (size : ℕ) (ink : Ink) (p : Pt),
        covered (waveformShapes cx cy size ink) (reflectX (cx : ℚ) p)
          ↔ covered (waveformShapes cx cy size ink) p)
    ∧ (∀ (cx cy : ℤ) (size : ℕ) (ink : Ink) (p : Pt),
        covered (wellnessShapes cx cy size ink) (reflectX (cx : ℚ) p)
          ↔ covered (wellnessShapes cx cy size ink) p)
    ∧ (∀ (dirs : ℕ → ℚ × ℚ) (cx cy : ℤ) (size : ℕ) (ink : Ink) (p : Pt),
        (∀ i, i < 8 → dirs ((12 - i) % 8) = (-(dirs i).1, (dirs i).2)) →
        (covered (weatherShapes dirs cx cy size ink) (reflectX (cx : ℚ) p)
          ↔ covered (weatherShapes dirs cx cy size ink) p))
    ∧ (∀ (cx cy : ℤ) (size : ℕ) (p : Pt),
        2 ∣ (4 * size / 5) →
        (inShape (calcDisplayShape cx cy size) (reflectX (cx : ℚ) p)
          ↔ inShape (calcDisplayShape cx cy size) p))
    ∧ (∀ (cx cy : ℤ) (size : ℕ) (ink : Ink) (p : Pt),
        covered (calcButtonShapes cx cy size ink)
            (reflectX ((cx : ℚ) + (((size / 7 : ℕ) : ℤ) : ℚ) / 2) p)
          ↔ covered (calcButtonShapes cx cy size ink) p) := by
  refine ⟨?_, ?_, ?_, ?_, ?_⟩
  · -- waveform
    intro cx cy size ink p
    apply covered_reflect
    intro si hsi
    simp only [waveformShapes, List.mem_cons, List.not_mem_nil, or_false] at hsi
    rcases hsi with rfl | rfl | rfl | rfl | rfl
    · exact ⟨(waveformBar cy size (cx + 2 * (((size / 10 : ℕ) : ℤ) + ((size / 12 : ℕ) : ℤ)))
          (1 / 2), ink), by simp [waveformShapes],
        fun q => waveformBar_region_mirror cx cy size _ _ _ q (by ring)⟩
    · exact ⟨(waveformBar cy size (cx + (((size / 10 : ℕ) : ℤ) + ((size / 12 : ℕ) : ℤ)))
          (7 / 10), ink), by simp [waveformShapes],
        fun q => waveformBar_region_mirror cx cy size _ _ _ q (by ring)⟩
    · exact ⟨(waveformBar cy size cx 1, ink), by simp [waveformShapes],
        fun q => waveformBar_region_mirror cx cy size _ _ _ q (by ring)⟩
    · exact ⟨(waveformBar cy size (cx - (((size / 10 : ℕ) : ℤ) + ((size / 12 : ℕ) : ℤ)))
          (7 / 10), ink), by simp [waveformShapes],
        fun q => waveformBar_region_mirror cx cy size _ _ _ q (by ring)⟩
    · exact ⟨(waveformBar cy size (cx - 2 * (((size / 10 : ℕ) : ℤ) + ((size / 12 : ℕ) : ℤ)))
          (1 / 2), ink), by simp [waveformShapes],
        fun q => waveformBar_region_mirror cx cy size _ _ _ q (by ring)⟩
  · -- wellness
    intro cx cy size ink p
    apply covered_reflect
    intro si hsi
    simp only [wellnessShapes, List.mem_cons, List.not_mem_nil, or_false] at hsi
    rcases hsi with rfl | rfl | rfl | rfl
    · exact ⟨(wellnessRightEll cx cy size, ink), by simp [wellnessShapes],
        fun q => by rw [mirror_wellnessLeft]⟩
    · exact ⟨(wellnessLeftEll cx cy size, ink), by simp [wellnessShapes],
        fun q => by rw [mirror_wellnessRight]⟩
    · exact ⟨(wellnessTri cx cy size, ink), by simp [wellnessShapes],
        fun q => (wellnessTri_mirror_region cx cy size q).symm⟩
    · exact ⟨(wellnessGap cx cy size, ink), by simp [wellnessShapes],
        fun q => by rw [mirror_wellnessGap]⟩
  · -- weather
    intro dirs cx cy size ink p hdirs
    apply covered_reflect
    intro si hsi
    simp only [weatherShapes, List.mem_append, List.mem_map, List.mem_range,
      List.mem_cons, List.not_mem_nil, or_false] at hsi
    rcases hsi with ⟨i, hi, rfl⟩ | rfl | rfl | rfl | rfl
    · refine ⟨(weatherRay dirs cx cy size ((12 - i) % 8), ink), ?_, ?_⟩
      · simp only [weatherShapes, List.mem_append, List.mem_map, List.mem_range]
        exact Or.inl ⟨(12 - i) % 8, Nat.mod_lt _ (by omega), rfl⟩
      · intro q
        rw [mirror_weatherRay dirs cx cy size i (hdirs i hi)]
    · exact ⟨(weatherSun cx cy size, ink), by simp [weatherShapes],
        fun q => by rw [mirror_weatherSun]⟩
    · exact ⟨(weatherCloudRight cx cy size, ink), by simp [weatherShapes],
        fun q => by rw [mirror_weatherCloudLeft]⟩
    · exact ⟨(weatherCloudMid cx cy size, ink), by simp [weatherShapes],
        fun q => by rw [mirror_weatherCloudMid]⟩
    · exact ⟨(weatherCloudLeft cx cy size, ink), by simp [weatherShapes],
        fun q => by rw [mirror_weatherCloudRight]⟩
  · -- display, even width
    intro cx cy size p hdvd
    obtain ⟨k, hk⟩ := hdvd
    rw [← inShape_mirror (cx : ℚ) (calcDisplayShape cx cy size) p]
    have hhalf : (4 * size / 5 / 2 : ℕ) = k := by omega
    have hm : mirrorShape (cx : ℚ) (calcDisplayShape cx cy size) = calcDisplayShape cx cy size := by
      simp only [calcDisplayShape, mirrorShape, Shape.rrect.injEq]
      refine ⟨?_, trivial, ?_, trivial, trivial⟩ <;>
        · rw [hhalf]
          push_cast [hk]
          ring
    rw [hm]
  · -- button grid, symmetric about x = cx + button_size/2
    intro cx cy size ink p
    apply covered_reflect
    intro si hsi
    simp only [calcButtonShapes, List.mem_flatMap, List.mem_map, List.mem_range] at hsi
    obtain ⟨row, hrow, col, hcol, rfl⟩ := hsi
    refine ⟨(calcButton cx cy size row (2 - col), ink), ?_, ?_⟩
    · simp only [calcButtonShapes, List.mem_flatMap, List.mem_map, List.mem_range]
      exact ⟨row, hrow, 2 - col, by omega, rfl⟩
    · intro q
      rw [mirror_calcButton cx cy size row col (by omega)]

/-- Witness for C3 with the mirror-closed direction set `dirsOct` and
an even display width (glyph size 60). -/
theorem c3_witness :
    ((∀ i, i < 8 → dirsOct ((12 - i) % 8) = (-(dirsOct i).1, (dirsOct i).2))
      ∧ 2 ∣ (4 * 60 / 5))
    ∧ (covered (weatherShapes dirsOct 60 60 30 whiteInkA) (reflectX ((60 : ℤ) : ℚ) ((10 : ℚ), (10 : ℚ)))
        ↔ covered (weatherShapes dirsOct 60 60 30 whiteInkA) ((10 : ℚ), (10 : ℚ)))
    ∧ (inShape (calcDisplayShape 60 60 60) (reflectX ((60 : ℤ) : ℚ) ((10 : ℚ), (10 : ℚ)))
        ↔ inShape (calcDisplayShape 60 60 60) ((10 : ℚ), (10 : ℚ))) :=
  ⟨⟨by decide, by decide⟩,
    c3_amended.2.2.1 dirsOct 60 60 30 whiteInkA ((10 : ℚ), (10 : ℚ)) (by decide),
    c3_amended.2.2.2.1 60 60 60 ((10 : ℚ), (10 : ℚ)) (by decide)⟩

end VoiceIt
